import Mathlib

/-!
Verification of the Truth-Lense lightweight deepfake detection engine
(backend/app/models/image_model.py, audio_model.py, video_model.py).

The engine is shallowly embedded over the rationals.  The numeric kernels the
engine delegates to the environment (cv2 decoding, FFTs, librosa feature
extraction, the Haar face cascade) are modelled as explicit inputs to the
embedded functions: each Python helper catches its own exceptions and returns
a documented fallback, so a detection call is a pure function of
 * the helper results (feature mapping, compression statistics, issue lists),
 * the behaviour of the optional progress sink (`flask_socketio.emit`), and
 * the wall-clock timestamp string, threaded as an explicit parameter.

Python floats are modelled as `ℚ` (the engine only compares against and
combines fixed decimal constants); Python `dict.get(key, default)` is
`Option.getD`; a helper that can fail is given the exact fallback value the
`except` branch of the source returns.
-/

/-- An anomaly record as built by the detectors:
`{"type": ..., "severity": ..., "description": ...}`. -/
structure Anomaly where
  type : String
  severity : String
  description : String
deriving Repr, DecidableEq

/-- The detection result dictionary returned by every entry point, restricted
to the fields shared by all three modalities.  `error` is `none` when the
Python dictionary has no `"error"` key. -/
structure DetectionResult where
  isDeepfake : Bool
  confidence : ℚ
  processingTime : ℚ
  anomalies : List Anomaly
  mediaType : String
  timestamp : String
  modelUsed : String
  error : Option String
deriving Repr, DecidableEq

/-- Behaviour of the optional progress sink.  In the source a sink is attached
exactly when both `progress_dict` and `session_id` are non-`None`; `absent`
models either of them being `None`, `ok` a working `emit`, and `raising msg`
an `emit` that raises an exception rendered as `msg` on first invocation.
The first `emit` of every modality precedes all computation inside the
top-level `try`. -/
inductive SinkBehavior where
  | absent : SinkBehavior
  | ok : SinkBehavior
  | raising : String → SinkBehavior
deriving Repr, DecidableEq

/-- The image feature mapping built by
`LightweightImageDetector._extract_traditional_features`.  Each key is
optional: the scoring stage reads the dictionary through `dict.get` with a
per-rule default, and the extractor returns the empty dictionary `{}` when
decoding fails. -/
structure ImageFeatures where
  edge_density : Option ℚ := none
  texture_variance : Option ℚ := none
  color_uniformity : Option ℚ := none
  brightness_entropy : Option ℚ := none
  local_texture_var : Option ℚ := none
  freq_energy : Option ℚ := none
  freq_variance : Option ℚ := none
  brightness_mean : Option ℚ := none
  brightness_std : Option ℚ := none
  width : Option ℤ := none
  height : Option ℤ := none
deriving Repr, DecidableEq

/-- The empty feature dictionary `{}` returned by
`_extract_traditional_features` when `cv2.imread` fails. -/
def emptyImageFeatures : ImageFeatures := {}

/-- Embeds `LightweightImageDetector._green_indicators`: counter-evidence score and
notes.  Weights: 0.25, 0.25, 0.15, 0.15, 0.1, 0.1, 0.05, 0.05, the total
capped at 0.8 by the final `min`. -/
def green_indicators (features : ImageFeatures) (avg_compression compression_var : ℚ)
    (face_issues : List String) : ℚ × List String :=
  let edge_density := features.edge_density.getD 0
  let texture_var := features.texture_variance.getD 0
  let color_uni := features.color_uniformity.getD 0
  let freq_var := features.freq_variance.getD 0
  let b_std := features.brightness_std.getD 0
  let w : ℤ := max 1 (features.width.getD 1)
  let h : ℤ := max 1 (features.height.getD 1)
  let total_px := w * h
  let s1 : ℚ × List String :=
    if 1/25 ≤ edge_density ∧ edge_density ≤ 1/4 then
      (1/4, ["Edge density in natural range"]) else (0, [])
  let s2 : ℚ × List String :=
    if 250 ≤ texture_var then (1/4, ["Healthy texture variance"]) else (0, [])
  let s3 : ℚ × List String :=
    if 15 ≤ color_uni ∧ color_uni ≤ 60 then
      (3/20, ["Natural color variability"]) else (0, [])
  let s4 : ℚ × List String :=
    if 3/2 ≤ freq_var ∧ freq_var ≤ 20 then
      (3/20, ["Balanced frequency spectrum"]) else (0, [])
  let s5 : ℚ × List String :=
    if 20 ≤ b_std then (1/10, ["Adequate contrast/brightness variation"]) else (0, [])
  let s6 : ℚ × List String :=
    if (3/100 ≤ avg_compression ∧ avg_compression ≤ 1/5) ∧ compression_var < 3/50 then
      (1/10, ["Compression looks consistent with camera/JPEG"]) else (0, [])
  let s7 : ℚ × List String :=
    if 640 * 480 ≤ total_px then (1/20, ["Sufficient resolution"]) else (0, [])
  let s8 : ℚ × List String :=
    if face_issues.isEmpty then (1/20, ["No facial inconsistencies detected"]) else (0, [])
  let green := s1.1 + s2.1 + s3.1 + s4.1 + s5.1 + s6.1 + s7.1 + s8.1
  let notes := s1.2 ++ s2.2 ++ s3.2 ++ s4.2 ++ s5.2 ++ s6.2 ++ s7.2 ++ s8.2
  (min green (4/5), notes)

/-- The rule-based suspicion accumulator of `LightweightImageDetector.detect`
(rules 1-6): returns the raw `suspicious_score` and the anomaly list in
insertion order.  Defaults of `features.get`: edge 0.15, texture 500,
color 30, frequency 5. -/
def imageSuspicion (features : ImageFeatures) (avg_compression compression_var : ℚ)
    (face_issues : List String) : ℚ × List Anomaly :=
  let a1 : ℚ × List Anomaly :=
    if features.edge_density.getD (3/20) < 3/100 then
      (9/50, [⟨"Edge smoothing", "high",
        "Image appears over-smoothed, typical of AI generation"⟩])
    else (0, [])
  let a2 : ℚ × List Anomaly :=
    if features.texture_variance.getD 500 < 80 then
      (3/20, [⟨"Low texture variance", "medium",
        "Texture patterns appear artificially uniform"⟩])
    else (0, [])
  let a3 : ℚ × List Anomaly :=
    if features.color_uniformity.getD 30 < 10 then
      (1/10, [⟨"Color uniformity", "medium", "Colors appear artificially uniform"⟩])
    else (0, [])
  let a4 : ℚ × List Anomaly :=
    if features.freq_variance.getD 5 < 1 then
      (1/10, [⟨"Frequency anomaly", "medium", "Suspicious frequency patterns detected"⟩])
    else (0, [])
  let a5 : ℚ × List Anomaly :=
    if avg_compression > 11/50 ∨ compression_var > 3/25 then
      (3/25, [⟨"Compression artifacts", "high",
        "Unusual compression patterns suggesting manipulation"⟩])
    else (0, [])
  let a6 : ℚ × List Anomaly :=
    ((8/100) * (face_issues.length : ℚ),
      face_issues.map (fun issue => ⟨"Facial inconsistency", "high", issue⟩))
  (a1.1 + a2.1 + a3.1 + a4.1 + a5.1 + a6.1,
   a1.2 ++ a2.2 ++ a3.2 ++ a4.2 ++ a5.2 ++ a6.2)

/-- The value `adjusted_suspicion = max(0.0, suspicious_score - 0.5 * green_score)`. -/
def imageAdjustedSuspicion (features : ImageFeatures) (avg_compression compression_var : ℚ)
    (face_issues : List String) : ℚ :=
  max 0 ((imageSuspicion features avg_compression compression_var face_issues).1 -
    (1/2) * (green_indicators features avg_compression compression_var face_issues).1)

/-- The fallback dictionary built by the `except` branch of
`LightweightImageDetector.detect`. -/
def imageFallback (ts msg : String) : DetectionResult :=
  { isDeepfake := false, confidence := 50, processingTime := 1/10, anomalies := [],
    mediaType := "image", timestamp := ts, modelUsed := "Error", error := some msg }

/-- The body of the top-level `try` of `LightweightImageDetector.detect` after
the helper calls, i.e. the run of the pipeline when nothing raises. -/
def imageDetectOk (ts : String) (features : ImageFeatures)
    (avg_compression compression_var : ℚ) (face_issues : List String) : DetectionResult :=
  let sc := imageSuspicion features avg_compression compression_var face_issues
  let gr := green_indicators features avg_compression compression_var face_issues
  let adjusted_suspicion :=
    imageAdjustedSuspicion features avg_compression compression_var face_issues
  let is_deepfake : Bool := decide (adjusted_suspicion > 4/5)
  let confidence : ℚ :=
    if adjusted_suspicion > 4/5 then min (55 + adjusted_suspicion * 45) 92
    else min 90 (60 + 25 * gr.1 - 10 * adjusted_suspicion)
  { isDeepfake := is_deepfake,
    confidence := confidence,
    processingTime := 1/2,
    anomalies := sc.2 ++ gr.2.map (fun note => ⟨"Green indicator", "info", note⟩),
    mediaType := "image",
    timestamp := ts,
    modelUsed := "Lightweight CV Analysis v1.1 (tuned)",
    error := none }

/-- Embeds `LightweightImageDetector.detect` / `analyze_image`, as a function of the
helper outcomes.  On a decode failure the three helpers themselves degrade
(`features = {}`, `(avg_compression, compression_var) = (0.1, 0.01)`,
`face_issues = []`) and the normal path still runs on those fallbacks; the
`except` branch is reached only when something inside the top-level `try`
raises, which the sink does in the `raising` case before any computation. -/
def imageDetect (sink : SinkBehavior) (ts : String) (features : ImageFeatures)
    (avg_compression compression_var : ℚ) (face_issues : List String) : DetectionResult :=
  match sink with
  | .raising msg => imageFallback ts msg
  | .absent => imageDetectOk ts features avg_compression compression_var face_issues
  | .ok => imageDetectOk ts features avg_compression compression_var face_issues

/-- Python `range(start, stop, step)` for a positive step, over `ℕ`
(a negative Python stop collapses to `0` under truncated subtraction at every
call site below, which yields the same empty list). -/
def pyRange (start stop step : ℕ) : List ℕ :=
  List.range' start ((stop - start + step - 1) / step) step

/-- The 8x8 block origins `(y, x)` visited by the two nested loops
`for y in range(0, h - block_size, block_size)` /
`for x in range(0, w - block_size, block_size)` of
`LightweightImageDetector._analyze_compression_artifacts`. -/
def compressionBlocks (h w : ℕ) : List (ℕ × ℕ) :=
  (pyRange 0 (h - 8) 8).flatMap (fun y => (pyRange 0 (w - 8) 8).map (fun x => (y, x)))

/-- Computes `np.mean` of a list of rationals (the empty case, `0/0 = 0` here and NaN
in numpy, is never compared against in the verified statements). -/
def listMean (l : List ℚ) : ℚ := l.sum / (l.length : ℚ)

/-- Computes `np.var` (population variance) of a list of rationals. -/
def listVar (l : List ℚ) : ℚ :=
  ((l.map (fun x => (x - listMean l) ^ 2)).sum) / (l.length : ℚ)

/-- The `compression_scores` list: per visited block the ratio of
high-frequency FFT energy to total FFT energy, appended only when the total
energy is positive.  `energy y x` gives the pair
`(np.sum(np.abs(fft_block[4:, 4:])), np.sum(np.abs(fft_block)))` of the block
with origin `(y, x)`; the FFT itself is a numeric kernel of the environment. -/
def blockScores (h w : ℕ) (energy : ℕ → ℕ → ℚ × ℚ) : List ℚ :=
  (compressionBlocks h w).filterMap (fun p =>
    if 0 < (energy p.1 p.2).2 then some ((energy p.1 p.2).1 / (energy p.1 p.2).2) else none)

/-- Embeds `_analyze_compression_artifacts` on a decodable grayscale image of height
`h` and width `w`: `(avg_compression, compression_var)`. -/
def analyze_compression_artifacts (h w : ℕ) (energy : ℕ → ℕ → ℚ × ℚ) : ℚ × ℚ :=
  (listMean (blockScores h w energy), listVar (blockScores h w energy))

/-- The block origins named by the claim: ALL non-overlapping 8x8 blocks of
the image, i.e. origins at multiples of 8 with the whole block inside the
image.  Stated from the claim wording, for comparison with
`compressionBlocks`. -/
def claimedCompressionBlocks (h w : ℕ) : List (ℕ × ℕ) :=
  ((List.range h).filter (fun y => decide (y % 8 = 0 ∧ y + 8 ≤ h))).flatMap
    (fun y => ((List.range w).filter (fun x => decide (x % 8 = 0 ∧ x + 8 ≤ w))).map
      (fun x => (y, x)))

/-- Block scores over the claim's block set (positive-total blocks). -/
def claimedBlockScores (h w : ℕ) (energy : ℕ → ℕ → ℚ × ℚ) : List ℚ :=
  (claimedCompressionBlocks h w).filterMap (fun p =>
    if 0 < (energy p.1 p.2).2 then some ((energy p.1 p.2).1 / (energy p.1 p.2).2) else none)

/-- A concrete per-block energy assignment on a 16x16 image: total energy 1
everywhere, high-frequency energy 0 at the block at the origin and 1 at every
other block. -/
def c4Energy : ℕ → ℕ → ℚ × ℚ := fun y x => if y = 0 ∧ x = 0 then (0, 1) else (1, 1)

/-- The audio feature mapping built by
`LightweightAudioDetector._extract_basic_features`; keys are read through
`dict.get`, and the extractor returns `{}` when it fails. -/
structure AudioFeatures where
  zcr_mean : Option ℚ := none
  zcr_std : Option ℚ := none
  rms_mean : Option ℚ := none
  rms_std : Option ℚ := none
  spectral_centroid_mean : Option ℚ := none
  spectral_centroid_std : Option ℚ := none
  spectral_rolloff_mean : Option ℚ := none
  spectral_rolloff_std : Option ℚ := none
  mfcc_0_mean : Option ℚ := none
  mfcc_0_std : Option ℚ := none
  mfcc_1_mean : Option ℚ := none
  mfcc_1_std : Option ℚ := none
  mfcc_2_mean : Option ℚ := none
  mfcc_2_std : Option ℚ := none
  mfcc_3_mean : Option ℚ := none
  mfcc_3_std : Option ℚ := none
  mfcc_4_mean : Option ℚ := none
  mfcc_4_std : Option ℚ := none
  tempo : Option ℚ := none
  audio_mean : Option ℚ := none
  audio_std : Option ℚ := none
  audio_skewness : Option ℚ := none
  audio_kurtosis : Option ℚ := none
deriving Repr, DecidableEq

/-- The empty audio feature dictionary `{}` returned on extraction failure. -/
def emptyAudioFeatures : AudioFeatures := {}

/-- The rule-based accumulator of `LightweightAudioDetector.detect`
(rules 1-4 plus the per-issue increments for voice-naturalness issues at 0.1
each and synthesis artifacts at 0.15 each).  Defaults of `features.get`:
zcr_std 0.01, rms_std 0.1, spectral_centroid_std 500, mfcc_0_std 10. -/
def audioSuspicion (features : AudioFeatures)
    (voice_issues synthesis_artifacts : List Anomaly) : ℚ × List Anomaly :=
  let a1 : ℚ × List Anomaly :=
    if features.zcr_std.getD (1/100) < 1/200 then
      (1/5, [⟨"Unnatural voice consistency", "medium",
        "Voice patterns too consistent for natural speech"⟩])
    else (0, [])
  let a2 : ℚ × List Anomaly :=
    if features.rms_std.getD (1/10) < 1/20 then
      (3/20, [⟨"Volume consistency", "medium", "Audio volume artificially consistent"⟩])
    else (0, [])
  let a3 : ℚ × List Anomaly :=
    if features.spectral_centroid_std.getD 500 < 200 then
      (3/20, [⟨"Spectral uniformity", "medium", "Audio brightness artificially uniform"⟩])
    else (0, [])
  let a4 : ℚ × List Anomaly :=
    if features.mfcc_0_std.getD 10 < 5 then
      (1/5, [⟨"MFCC uniformity", "high", "Voice characteristics too uniform"⟩])
    else (0, [])
  (a1.1 + a2.1 + a3.1 + a4.1 + (1/10) * (voice_issues.length : ℚ) +
    (3/20) * (synthesis_artifacts.length : ℚ),
   a1.2 ++ a2.2 ++ a3.2 ++ a4.2 ++ voice_issues ++ synthesis_artifacts)

/-- The fallback dictionary built by the `except` branch of
`LightweightAudioDetector.detect`. -/
def audioFallback (ts msg : String) : DetectionResult :=
  { isDeepfake := false, confidence := 50, processingTime := 1/2, anomalies := [],
    mediaType := "audio", timestamp := ts, modelUsed := "Error", error := some msg }

/-- The run of the audio pipeline when the audio loaded and nothing raises. -/
def audioDetectOk (ts : String) (features : AudioFeatures)
    (voice_issues synthesis_artifacts : List Anomaly) : DetectionResult :=
  let sc := audioSuspicion features voice_issues synthesis_artifacts
  let is_deepfake : Bool := decide (sc.1 > 1/2)
  let confidence : ℚ :=
    if sc.1 > 1/2 then min (65 + sc.1 * 30) 95 else max (75 - sc.1 * 25) 60
  { isDeepfake := is_deepfake,
    confidence := confidence,
    processingTime := 1,
    anomalies := sc.2,
    mediaType := "audio",
    timestamp := ts,
    modelUsed := "Lightweight Signal Processing",
    error := none }

/-- Embeds `LightweightAudioDetector.detect` / `analyze_audio`.  Here `loadOk = false`
models `_load_audio` returning `(None, None)` (decode failure or empty
buffer), upon which `detect` raises `ValueError("Could not load audio file")`
into its own `except` branch. -/
def audioDetect (sink : SinkBehavior) (ts : String) (loadOk : Bool)
    (features : AudioFeatures) (voice_issues synthesis_artifacts : List Anomaly) :
    DetectionResult :=
  match sink with
  | .raising msg => audioFallback ts msg
  | .absent =>
    if loadOk then audioDetectOk ts features voice_issues synthesis_artifacts
    else audioFallback ts "Could not load audio file"
  | .ok =>
    if loadOk then audioDetectOk ts features voice_issues synthesis_artifacts
    else audioFallback ts "Could not load audio file"

/-- Per-frame features computed by
`LightweightVideoDetector._analyze_single_frame_lightweight` from a decoded
frame. -/
structure FrameFeatures where
  blur_score : ℚ
  edge_density : ℚ
  color_uniformity : ℚ
  brightness : ℚ
  brightness_std : ℚ
deriving Repr, DecidableEq

/-- The five per-frame rules of `_analyze_single_frame_lightweight`:
`suspicious_score` and the collected reason strings. -/
def frameRules (f : FrameFeatures) : ℚ × List String :=
  let r1 : ℚ × List String :=
    if f.blur_score < 100 then (3/10, ["Frame appears over-smoothed"]) else (0, [])
  let r2 : ℚ × List String :=
    if f.edge_density < 2/25 then (1/5, ["Low edge density detected"]) else (0, [])
  let r3 : ℚ × List String :=
    if f.color_uniformity < 15 then (1/5, ["Colors appear artificially uniform"]) else (0, [])
  let r4 : ℚ × List String :=
    if f.brightness < 50 ∨ f.brightness > 200 then
      (1/10, ["Unusual brightness levels"]) else (0, [])
  let r5 : ℚ × List String :=
    if f.brightness_std < 30 then (1/5, ["Low brightness variation"]) else (0, [])
  (r1.1 + r2.1 + r3.1 + r4.1 + r5.1, r1.2 ++ r2.2 ++ r3.2 ++ r4.2 ++ r5.2)

/-- Embeds `_analyze_single_frame_lightweight`: `(is_suspicious, confidence, reasons)`.
`none` models a frame on which the analysis raises, degrading to
`(False, 50.0, [])` in the local `except` branch. -/
def analyzeSingleFrame (f : Option FrameFeatures) : Bool × ℚ × List String :=
  match f with
  | none => (false, 50, [])
  | some f =>
    let rules := frameRules f
    let is_suspicious : Bool := decide (rules.1 > 2/5)
    let confidence : ℚ :=
      if rules.1 > 2/5 then min (60 + rules.1 * 35) 90 else max (70 - rules.1 * 30) 55
    (is_suspicious, confidence, rules.2)

/-- The fallback dictionary built by the `except` branch of
`LightweightVideoDetector.detect`. -/
def videoFallback (ts msg : String) : DetectionResult :=
  { isDeepfake := false, confidence := 50, processingTime := 1, anomalies := [],
    mediaType := "video", timestamp := ts, modelUsed := "Error", error := some msg }

/-- The run of the video pipeline when at least one frame was extracted and
nothing raises.  `frames` lists the sampled (possibly downscaled) frames;
`temporal_issues` and `face_issues` are the outputs of
`_analyze_temporal_consistency` and `_simple_face_tracking` (both degrade to
`[]` on their own failures). -/
def videoDetectOk (ts : String) (frames : List (Option FrameFeatures))
    (temporal_issues face_issues : List Anomaly) : DetectionResult :=
  let results := frames.map analyzeSingleFrame
  let suspicious := results.filter (fun r => r.1)
  let deepfake_frame_count : ℕ := suspicious.length
  let total_suspicious_score : ℚ := (suspicious.map (fun r => r.2.1 / 100)).sum
  let deepfake_ratio : ℚ := (deepfake_frame_count : ℚ) / (frames.length : ℚ)
  let is_deepfake : Bool :=
    decide (deepfake_ratio > 2/5 ∨ temporal_issues.length > 2 ∨ face_issues.length > 1)
  let base_confidence : ℚ :=
    if deepfake_frame_count > 0 then
      (total_suspicious_score / ((max 1 deepfake_frame_count : ℕ) : ℚ)) * 100
    else 50
  let evidence_boost : ℚ :=
    5 * (temporal_issues.length : ℚ) + 3 * (face_issues.length : ℚ)
  let overall_confidence : ℚ :=
    if is_deepfake then min (base_confidence + evidence_boost) 95
    else max (75 - evidence_boost) 60
  let anomalies0 : List Anomaly :=
    temporal_issues ++ face_issues ++
      (if deepfake_ratio > 1/2 then
        [⟨"High suspicious frame ratio", "high", "of frames appear manipulated"⟩] else [])
  let anomalies : List Anomaly :=
    if is_deepfake = true ∧ anomalies0.length < 2 then
      anomalies0 ++
        [⟨"Visual inconsistency", "medium",
          "Multiple frames show signs of artificial generation"⟩,
         ⟨"Processing artifacts", "high",
          "Video shows characteristics of AI manipulation"⟩]
    else anomalies0
  { isDeepfake := is_deepfake,
    confidence := overall_confidence,
    processingTime := 2,
    anomalies := anomalies,
    mediaType := "video",
    timestamp := ts,
    modelUsed := "Lightweight CV Analysis",
    error := none }

/-- Embeds `LightweightVideoDetector.detect` / `analyze_video`.  An empty `frames`
list models `_extract_key_frames` failing or reading no frames, upon which
`detect` raises `ValueError("Could not extract frames from video")` into its
own `except` branch. -/
def videoDetect (sink : SinkBehavior) (ts : String) (frames : List (Option FrameFeatures))
    (temporal_issues face_issues : List Anomaly) : DetectionResult :=
  match sink with
  | .raising msg => videoFallback ts msg
  | .absent =>
    if frames.isEmpty then videoFallback ts "Could not extract frames from video"
    else videoDetectOk ts frames temporal_issues face_issues
  | .ok =>
    if frames.isEmpty then videoFallback ts "Could not extract frames from video"
    else videoDetectOk ts frames temporal_issues face_issues

/-- Which of the six image suspicion-rule conditions fire on a given input,
plus the face-issue count driving rule 6. -/
structure ImageRuleFires where
  edgeRule : Bool
  textureRule : Bool
  colorRule : Bool
  freqRule : Bool
  compRule : Bool
  faceIssueCount : Nat
deriving Repr, DecidableEq

/-- The fired-condition profile of an image input. -/
def imageFiresOf (features : ImageFeatures) (avg_compression compression_var : Rat)
    (face_issues : List String) : ImageRuleFires :=
  { edgeRule := decide (features.edge_density.getD (3/20) < 3/100),
    textureRule := decide (features.texture_variance.getD 500 < 80),
    colorRule := decide (features.color_uniformity.getD 30 < 10),
    freqRule := decide (features.freq_variance.getD 5 < 1),
    compRule := decide (avg_compression > 11/50 ∨ compression_var > 3/25),
    faceIssueCount := face_issues.length }

/-- The raw image suspicion score as a function of the fired profile alone. -/
def imageFiresScore (p : ImageRuleFires) : Rat :=
  (if p.edgeRule then 9/50 else 0) + (if p.textureRule then 3/20 else 0) +
    (if p.colorRule then 1/10 else 0) + (if p.freqRule then 1/10 else 0) +
    (if p.compRule then 3/25 else 0) + (8/100) * (p.faceIssueCount : Rat)

/-- Pointwise order on image profiles: the right side fires every condition
the left side fires, and at least as many face issues. -/
def ImageRuleFires.below (p q : ImageRuleFires) : Prop :=
  p.edgeRule ≤ q.edgeRule ∧ p.textureRule ≤ q.textureRule ∧ p.colorRule ≤ q.colorRule ∧
    p.freqRule ≤ q.freqRule ∧ p.compRule ≤ q.compRule ∧ p.faceIssueCount ≤ q.faceIssueCount

/-- Which of the four audio threshold rules fire, plus the issue counts that
drive the per-issue increments. -/
structure AudioRuleFires where
  zcrRule : Bool
  rmsRule : Bool
  spectralRule : Bool
  mfccRule : Bool
  voiceIssueCount : Nat
  synthesisArtifactCount : Nat
deriving Repr, DecidableEq

/-- The fired-condition profile of an audio input. -/
def audioFiresOf (features : AudioFeatures) (voice_issues synthesis_artifacts : List Anomaly) :
    AudioRuleFires :=
  { zcrRule := decide (features.zcr_std.getD (1/100) < 1/200),
    rmsRule := decide (features.rms_std.getD (1/10) < 1/20),
    spectralRule := decide (features.spectral_centroid_std.getD 500 < 200),
    mfccRule := decide (features.mfcc_0_std.getD 10 < 5),
    voiceIssueCount := voice_issues.length,
    synthesisArtifactCount := synthesis_artifacts.length }

/-- The raw audio suspicion score as a function of the fired profile alone. -/
def audioFiresScore (p : AudioRuleFires) : Rat :=
  (if p.zcrRule then 1/5 else 0) + (if p.rmsRule then 3/20 else 0) +
    (if p.spectralRule then 3/20 else 0) + (if p.mfccRule then 1/5 else 0) +
    (1/10) * (p.voiceIssueCount : Rat) + (3/20) * (p.synthesisArtifactCount : Rat)

/-- Pointwise order on audio profiles. -/
def AudioRuleFires.below (p q : AudioRuleFires) : Prop :=
  p.zcrRule ≤ q.zcrRule ∧ p.rmsRule ≤ q.rmsRule ∧ p.spectralRule ≤ q.spectralRule ∧
    p.mfccRule ≤ q.mfccRule ∧ p.voiceIssueCount ≤ q.voiceIssueCount ∧
    p.synthesisArtifactCount ≤ q.synthesisArtifactCount

/-- Which of the five per-frame video rules fire on a frame. -/
structure FrameRuleFires where
  blurRule : Bool
  edgeRule : Bool
  colorRule : Bool
  brightnessRule : Bool
  brightnessStdRule : Bool
deriving Repr, DecidableEq

/-- The fired-condition profile of a video frame. -/
def frameFiresOf (f : FrameFeatures) : FrameRuleFires :=
  { blurRule := decide (f.blur_score < 100),
    edgeRule := decide (f.edge_density < 2/25),
    colorRule := decide (f.color_uniformity < 15),
    brightnessRule := decide (f.brightness < 50 ∨ f.brightness > 200),
    brightnessStdRule := decide (f.brightness_std < 30) }

/-- The per-frame suspicion score as a function of the fired profile alone. -/
def frameFiresScore (p : FrameRuleFires) : Rat :=
  (if p.blurRule then 3/10 else 0) + (if p.edgeRule then 1/5 else 0) +
    (if p.colorRule then 1/5 else 0) + (if p.brightnessRule then 1/10 else 0) +
    (if p.brightnessStdRule then 1/5 else 0)

/-- Pointwise order on frame profiles. -/
def FrameRuleFires.below (p q : FrameRuleFires) : Prop :=
  p.blurRule ≤ q.blurRule ∧ p.edgeRule ≤ q.edgeRule ∧ p.colorRule ≤ q.colorRule ∧
    p.brightnessRule ≤ q.brightnessRule ∧ p.brightnessStdRule ≤ q.brightnessStdRule

/-! ### Helper lemmas (shared across claim theorems) -/

theorem ite_weight_nonneg (c : Prop) [Decidable c] (w : ℚ) (hw : 0 ≤ w) :
    0 ≤ if c then w else 0 := by
  split_ifs <;> simp [hw]

theorem ite_pair_fst_nonneg (c : Prop) [Decidable c] (w : ℚ) (l : List Anomaly)
    (hw : 0 ≤ w) : 0 ≤ (if c then (w, l) else ((0 : ℚ), ([] : List Anomaly))).1 := by
  split_ifs <;> simp [hw]

theorem ite_note_fst_nonneg (c : Prop) [Decidable c] (w : ℚ) (l : List String)
    (hw : 0 ≤ w) : 0 ≤ (if c then (w, l) else ((0 : ℚ), ([] : List String))).1 := by
  split_ifs <;> simp [hw]

theorem green_score_nonneg (f : ImageFeatures) (ac cv : ℚ) (fi : List String) :
    0 ≤ (green_indicators f ac cv fi).1 := by
  simp only [green_indicators]
  refine le_min ?_ (by norm_num)
  repeat refine add_nonneg ?_ (by exact ite_note_fst_nonneg _ _ _ (by norm_num))
  exact ite_note_fst_nonneg _ _ _ (by norm_num)

theorem green_score_le (f : ImageFeatures) (ac cv : ℚ) (fi : List String) :
    (green_indicators f ac cv fi).1 ≤ 4/5 := by
  simp only [green_indicators]
  exact min_le_right _ _

theorem imageSuspicion_nonneg (f : ImageFeatures) (ac cv : ℚ) (fi : List String) :
    0 ≤ (imageSuspicion f ac cv fi).1 := by
  simp only [imageSuspicion]
  refine add_nonneg ?_ (by positivity)
  repeat refine add_nonneg ?_ (by exact ite_pair_fst_nonneg _ _ _ (by norm_num))
  exact ite_pair_fst_nonneg _ _ _ (by norm_num)

theorem imageAdjustedSuspicion_nonneg (f : ImageFeatures) (ac cv : ℚ)
    (fi : List String) : 0 ≤ imageAdjustedSuspicion f ac cv fi :=
  le_max_left 0 _

theorem audioSuspicion_nonneg (f : AudioFeatures) (vi sa : List Anomaly) :
    0 ≤ (audioSuspicion f vi sa).1 := by
  simp only [audioSuspicion]
  refine add_nonneg (add_nonneg ?_ (by positivity)) (by positivity)
  repeat refine add_nonneg ?_ (by exact ite_pair_fst_nonneg _ _ _ (by norm_num))
  exact ite_pair_fst_nonneg _ _ _ (by norm_num)

theorem frameRules_nonneg (f : FrameFeatures) : 0 ≤ (frameRules f).1 := by
  simp only [frameRules]
  repeat refine add_nonneg ?_ (by exact ite_note_fst_nonneg _ _ _ (by norm_num))
  exact ite_note_fst_nonneg _ _ _ (by norm_num)

theorem frameConfidence_bounds (of : Option FrameFeatures) :
    0 ≤ (analyzeSingleFrame of).2.1 ∧ (analyzeSingleFrame of).2.1 ≤ 90 := by
  match of with
  | none =>
    refine ⟨by norm_num [analyzeSingleFrame], by norm_num [analyzeSingleFrame]⟩
  | some f =>
    have h0 := frameRules_nonneg f
    simp only [analyzeSingleFrame]
    split_ifs with h
    · exact ⟨le_min (by linarith) (by norm_num), min_le_right _ _⟩
    · constructor
      · exact le_trans (by norm_num) (le_max_right _ 55)
      · refine max_le (by linarith) (by norm_num)

theorem videoSuspiciousSum_bounds (l : List (Bool × ℚ × List String))
    (h : ∀ r ∈ l, 0 ≤ r.2.1 ∧ r.2.1 ≤ 90) :
    0 ≤ (l.map (fun r => r.2.1 / 100)).sum ∧
      (l.map (fun r => r.2.1 / 100)).sum ≤ (9/10) * (l.length : ℚ) := by
  induction l with
  | nil => simp
  | cons a t ih =>
    have ha := h a (List.mem_cons_self a t)
    have ht := ih (fun r hr => h r (List.mem_cons_of_mem a hr))
    simp only [List.map_cons, List.sum_cons, List.length_cons]
    constructor
    · have : (0:ℚ) ≤ a.2.1 / 100 := div_nonneg ha.1 (by norm_num)
      linarith [ht.1]
    · have h1 : a.2.1 / 100 ≤ 9/10 := by linarith [ha.2]
      have h2 : ((t.length + 1 : ℕ) : ℚ) = (t.length : ℚ) + 1 := by push_cast; ring
      rw [h2]
      linarith [ht.2]

theorem ite_le_ite_of_le {a b : Bool} (w : ℚ) (hw : 0 ≤ w) (h : a ≤ b) :
    (if a then w else 0) ≤ (if b then w else 0) := by
  cases a <;> cases b <;> simp_all
  exact absurd h (by decide)

theorem imageSuspicion_eq_firesScore (f : ImageFeatures) (ac cv : ℚ) (fi : List String) :
    (imageSuspicion f ac cv fi).1 = imageFiresScore (imageFiresOf f ac cv fi) := by
  simp only [imageSuspicion, imageFiresOf, imageFiresScore, apply_ite Prod.fst,
    decide_eq_true_eq]

theorem audioSuspicion_eq_firesScore (f : AudioFeatures) (vi sa : List Anomaly) :
    (audioSuspicion f vi sa).1 = audioFiresScore (audioFiresOf f vi sa) := by
  simp only [audioSuspicion, audioFiresOf, audioFiresScore, apply_ite Prod.fst,
    decide_eq_true_eq]

theorem frameRules_eq_firesScore (f : FrameFeatures) :
    (frameRules f).1 = frameFiresScore (frameFiresOf f) := by
  simp only [frameRules, frameFiresOf, frameFiresScore, apply_ite Prod.fst,
    decide_eq_true_eq]

theorem imageFiresScore_mono {p q : ImageRuleFires} (h : p.below q) :
    imageFiresScore p ≤ imageFiresScore q := by
  obtain ⟨h1, h2, h3, h4, h5, h6⟩ := h
  unfold imageFiresScore
  refine add_le_add (add_le_add (add_le_add (add_le_add (add_le_add
    (ite_le_ite_of_le _ (by norm_num) h1) (ite_le_ite_of_le _ (by norm_num) h2))
    (ite_le_ite_of_le _ (by norm_num) h3)) (ite_le_ite_of_le _ (by norm_num) h4))
    (ite_le_ite_of_le _ (by norm_num) h5))
    (mul_le_mul_of_nonneg_left (Nat.cast_le.mpr h6) (by norm_num))

theorem audioFiresScore_mono {p q : AudioRuleFires} (h : p.below q) :
    audioFiresScore p ≤ audioFiresScore q := by
  obtain ⟨h1, h2, h3, h4, h5, h6⟩ := h
  unfold audioFiresScore
  refine add_le_add (add_le_add (add_le_add (add_le_add (add_le_add
    (ite_le_ite_of_le _ (by norm_num) h1) (ite_le_ite_of_le _ (by norm_num) h2))
    (ite_le_ite_of_le _ (by norm_num) h3)) (ite_le_ite_of_le _ (by norm_num) h4))
    (mul_le_mul_of_nonneg_left (Nat.cast_le.mpr h5) (by norm_num)))
    (mul_le_mul_of_nonneg_left (Nat.cast_le.mpr h6) (by norm_num))

theorem frameFiresScore_mono {p q : FrameRuleFires} (h : p.below q) :
    frameFiresScore p ≤ frameFiresScore q := by
  obtain ⟨h1, h2, h3, h4, h5⟩ := h
  unfold frameFiresScore
  refine add_le_add (add_le_add (add_le_add (add_le_add
    (ite_le_ite_of_le _ (by norm_num) h1) (ite_le_ite_of_le _ (by norm_num) h2))
    (ite_le_ite_of_le _ (by norm_num) h3)) (ite_le_ite_of_le _ (by norm_num) h4))
    (ite_le_ite_of_le _ (by norm_num) h5)

theorem mem_pyRange_zero (stop m : ℕ) : m ∈ pyRange 0 stop 8 ↔ 8 ∣ m ∧ m < stop := by
  unfold pyRange
  rw [List.mem_range']
  constructor
  · rintro ⟨i, hi, rfl⟩
    refine ⟨⟨i, by ring⟩, ?_⟩
    omega
  · rintro ⟨⟨k, rfl⟩, hm⟩
    exact ⟨k, by omega, by ring⟩

theorem mem_compressionBlocks (h w y x : ℕ) :
    (y, x) ∈ compressionBlocks h w ↔ 8 ∣ y ∧ 8 ∣ x ∧ y + 8 < h ∧ x + 8 < w := by
  unfold compressionBlocks
  simp only [List.mem_flatMap, List.mem_map, Prod.mk.injEq]
  constructor
  · rintro ⟨a, ha, b, hb, rfl, rfl⟩
    rw [mem_pyRange_zero] at ha hb
    exact ⟨ha.1, hb.1, by omega, by omega⟩
  · rintro ⟨hy, hx, hyh, hxw⟩
    exact ⟨y, (mem_pyRange_zero _ _).mpr ⟨hy, by omega⟩,
      x, (mem_pyRange_zero _ _).mpr ⟨hx, by omega⟩, rfl, rfl⟩

/-! ### Claim theorems -/

/-- C4, counterexample.  The claim says the compression-artifact analysis
covers ALL non-overlapping 8x8 blocks.  On a 16x16 grayscale image the claim
names four blocks, but `range(0, h - 8, 8)` stops before `h - 8`, so the code
visits only the block at `(0, 0)`: with blocks of total energy 1 whose
high-frequency energy is 0 at `(0, 0)` and 1 elsewhere, the code returns mean
0 while the mean over all non-overlapping blocks is 3/4. -/
theorem C4_counterexample :
    compressionBlocks 16 16 ≠ claimedCompressionBlocks 16 16 ∧
    (analyze_compression_artifacts 16 16 c4Energy).1 = 0 ∧
    listMean (claimedBlockScores 16 16 c4Energy) = 3/4 := by
  have hcode : compressionBlocks 16 16 = [(0, 0)] := by decide
  have hclaim : claimedCompressionBlocks 16 16 = [(0, 0), (0, 8), (8, 0), (8, 8)] := by
    decide
  have hs1 : blockScores 16 16 c4Energy = [0] := by
    rw [blockScores, hcode]
    norm_num [c4Energy, List.filterMap_cons, List.filterMap_nil]
  have hs2 : claimedBlockScores 16 16 c4Energy = [0, 1, 1, 1] := by
    rw [claimedBlockScores, hclaim]
    norm_num [c4Energy, List.filterMap_cons, List.filterMap_nil]
  refine ⟨by rw [hcode, hclaim]; decide, ?_, ?_⟩
  · rw [analyze_compression_artifacts, hs1]
    norm_num [listMean]
  · rw [hs2]
    norm_num [listMean]

/-- C4, amended.  The analysis visits exactly the 8-aligned 8x8 blocks whose
origin is strictly below `dimension - 8` in each axis (the last fitting block
row and column are omitted by the exclusive `range` bound), and it returns
the mean and the population variance of the high-frequency ratio over the
visited blocks with positive total energy. -/
theorem C4_amended (h w y x : ℕ) (energy : ℕ → ℕ → ℚ × ℚ) :
    ((y, x) ∈ compressionBlocks h w ↔ 8 ∣ y ∧ 8 ∣ x ∧ y + 8 < h ∧ x + 8 < w) ∧
    analyze_compression_artifacts h w energy =
      (listMean (blockScores h w energy), listVar (blockScores h w energy)) :=
  ⟨mem_compressionBlocks h w y x, rfl⟩

/-- C1, counterexample.  A decode error on the IMAGE entry point does not
produce the claimed fallback: `cv2.imread` returning `None` is caught inside
each helper (`_extract_traditional_features` returns `{}`,
`_analyze_compression_artifacts` returns `(0.1, 0.01)`,
`_detect_face_inconsistencies` returns `[]`), no exception reaches the
top-level `try` of `detect`, and `analyze_image` returns a NORMAL result:
no `error` field, confidence 63.75 (not 50.0). -/
theorem C1_counterexample :
    (imageDetect .absent "t" emptyImageFeatures (1/10) (1/100) []).error = none ∧
    (imageDetect .absent "t" emptyImageFeatures (1/10) (1/100) []).confidence = 255/4 ∧
    (imageDetect .absent "t" emptyImageFeatures (1/10) (1/100) []).isDeepfake = false := by
  have hg : (green_indicators emptyImageFeatures (1/10) (1/100) []).1 = 3/20 := by
    norm_num [green_indicators, emptyImageFeatures]
  have hs : (imageSuspicion emptyImageFeatures (1/10) (1/100) []).1 = 0 := by
    norm_num [imageSuspicion, emptyImageFeatures]
  have ha : imageAdjustedSuspicion emptyImageFeatures (1/10) (1/100) [] = 0 := by
    rw [imageAdjustedSuspicion, hg, hs]; norm_num
  refine ⟨rfl, ?_, ?_⟩
  · simp only [imageDetect, imageDetectOk, ha, hg]
    norm_num
  · simp only [imageDetect, imageDetectOk, ha]
    norm_num

/-- C1, amended.  Audio and video behave as claimed: a decode failure makes
the entry point return the fallback DetectionResult with `confidence = 50.0`,
`isDeepfake = false` and a fixed non-empty error message.  The image entry
point instead swallows decode failures inside its helpers and returns a
normal result built from the helper fallback values (`{}`, `(0.1, 0.01)`,
`[]`): confidence 63.75, `isDeepfake = false`, and NO error field. -/
theorem C1_amended (ts : String) (af : AudioFeatures) (vi sa ti fi : List Anomaly) :
    ((audioDetect .absent ts false af vi sa).isDeepfake = false ∧
      (audioDetect .absent ts false af vi sa).confidence = 50 ∧
      (audioDetect .absent ts false af vi sa).error = some "Could not load audio file") ∧
    ((videoDetect .absent ts [] ti fi).isDeepfake = false ∧
      (videoDetect .absent ts [] ti fi).confidence = 50 ∧
      (videoDetect .absent ts [] ti fi).error = some "Could not extract frames from video") ∧
    ((imageDetect .absent ts emptyImageFeatures (1/10) (1/100) []).error = none ∧
      (imageDetect .absent ts emptyImageFeatures (1/10) (1/100) []).confidence = 255/4 ∧
      (imageDetect .absent ts emptyImageFeatures (1/10) (1/100) []).isDeepfake = false) := by
  have hg : (green_indicators emptyImageFeatures (1/10) (1/100) []).1 = 3/20 := by
    norm_num [green_indicators, emptyImageFeatures]
  have hs : (imageSuspicion emptyImageFeatures (1/10) (1/100) []).1 = 0 := by
    norm_num [imageSuspicion, emptyImageFeatures]
  have ha : imageAdjustedSuspicion emptyImageFeatures (1/10) (1/100) [] = 0 := by
    rw [imageAdjustedSuspicion, hg, hs]; norm_num
  refine ⟨⟨rfl, rfl, rfl⟩, ⟨rfl, rfl, rfl⟩, rfl, ?_, ?_⟩
  · simp only [imageDetect, imageDetectOk, ha, hg]
    norm_num
  · simp only [imageDetect, imageDetectOk, ha]
    norm_num

/-- C3: on the image non-error path, adjusted suspicion is
`max(0, raw - 0.5 * green)`, the classification is `adjusted > 0.8`, and the
confidence is `min(55 + adjusted*45, 92)` when fake and
`min(90, 60 + 25*green - 10*adjusted)` when real. -/
theorem C3_image_formulas (ts : String) (f : ImageFeatures) (ac cv : ℚ)
    (fis : List String) :
    imageAdjustedSuspicion f ac cv fis =
      max 0 ((imageSuspicion f ac cv fis).1 -
        (1/2) * (green_indicators f ac cv fis).1) ∧
    (imageDetect .absent ts f ac cv fis).isDeepfake =
      decide (imageAdjustedSuspicion f ac cv fis > 4/5) ∧
    (imageDetect .absent ts f ac cv fis).confidence =
      (if imageAdjustedSuspicion f ac cv fis > 4/5 then
        min (55 + imageAdjustedSuspicion f ac cv fis * 45) 92
      else min 90 (60 + 25 * (green_indicators f ac cv fis).1 -
        10 * imageAdjustedSuspicion f ac cv fis)) :=
  ⟨rfl, rfl, rfl⟩

/-- C5: for every image input the green counter-evidence score lies in
`[0, 0.8]`, and both the raw suspicion score and the adjusted suspicion score
are non-negative. -/
theorem C5_image_invariants (f : ImageFeatures) (ac cv : ℚ) (fis : List String) :
    0 ≤ (green_indicators f ac cv fis).1 ∧ (green_indicators f ac cv fis).1 ≤ 4/5 ∧
    0 ≤ (imageSuspicion f ac cv fis).1 ∧ 0 ≤ imageAdjustedSuspicion f ac cv fis :=
  ⟨green_score_nonneg f ac cv fis, green_score_le f ac cv fis,
    imageSuspicion_nonneg f ac cv fis, imageAdjustedSuspicion_nonneg f ac cv fis⟩

theorem imageDetectOk_conf_bounds (ts : String) (f : ImageFeatures) (ac cv : ℚ)
    (fis : List String) :
    0 ≤ (imageDetectOk ts f ac cv fis).confidence ∧
      (imageDetectOk ts f ac cv fis).confidence ≤ 100 := by
  have hs := imageSuspicion_nonneg f ac cv fis
  have hg0 := green_score_nonneg f ac cv fis
  have hg := green_score_le f ac cv fis
  have ha0 := imageAdjustedSuspicion_nonneg f ac cv fis
  simp only [imageDetectOk]
  split_ifs with h
  · exact ⟨le_min (by linarith) (by norm_num),
      le_trans (min_le_right _ _) (by norm_num)⟩
  · push_neg at h
    exact ⟨le_min (by norm_num) (by linarith),
      le_trans (min_le_left _ _) (by norm_num)⟩

theorem audioDetectOk_conf_bounds (ts : String) (af : AudioFeatures)
    (vi sa : List Anomaly) :
    0 ≤ (audioDetectOk ts af vi sa).confidence ∧
      (audioDetectOk ts af vi sa).confidence ≤ 100 := by
  have hs := audioSuspicion_nonneg af vi sa
  simp only [audioDetectOk]
  split_ifs with h
  · exact ⟨le_min (by linarith) (by norm_num),
      le_trans (min_le_right _ _) (by norm_num)⟩
  · push_neg at h
    exact ⟨le_trans (by norm_num) (le_max_right _ 60),
      max_le (by linarith) (by norm_num)⟩

theorem videoDetectOk_conf_bounds (ts : String) (frames : List (Option FrameFeatures))
    (ti fi : List Anomaly) :
    0 ≤ (videoDetectOk ts frames ti fi).confidence ∧
      (videoDetectOk ts frames ti fi).confidence ≤ 100 := by
  have hmem : ∀ r ∈ (frames.map analyzeSingleFrame).filter (fun r => r.1),
      0 ≤ r.2.1 ∧ r.2.1 ≤ 90 := by
    intro r hr
    obtain ⟨of, _, rfl⟩ := List.mem_map.mp (List.mem_of_mem_filter hr)
    exact frameConfidence_bounds of
  have hsum := videoSuspiciousSum_bounds _ hmem
  have hboost : (0:ℚ) ≤ 5 * (ti.length : ℚ) + 3 * (fi.length : ℚ) := by positivity
  simp only [videoDetectOk]
  set cnt := ((frames.map analyzeSingleFrame).filter (fun r => r.1)).length with hcnt
  set tot := (((frames.map analyzeSingleFrame).filter (fun r => r.1)).map
    (fun r => r.2.1 / 100)).sum with htot
  set B := (if cnt > 0 then tot / ((max 1 cnt : ℕ) : ℚ) * 100 else 50) with hB
  have hB0 : 0 ≤ B ∧ B ≤ 90 := by
    rw [hB]
    split_ifs with hc
    · have hmax : (max 1 cnt : ℕ) = cnt := Nat.max_eq_right hc
      rw [hmax]
      have hnpos : (0:ℚ) < (cnt : ℚ) := by exact_mod_cast hc
      constructor
      · exact mul_nonneg (div_nonneg hsum.1 (le_of_lt hnpos)) (by norm_num)
      · rw [div_mul_eq_mul_div, div_le_iff₀ hnpos]
        linarith [hsum.2]
    · norm_num
  split_ifs with h
  · exact ⟨le_min (by linarith [hB0.1]) (by norm_num),
      le_trans (min_le_right _ _) (by norm_num)⟩
  · constructor
    · exact le_trans (by norm_num : (0:ℚ) ≤ 60) (le_max_right _ _)
    · refine max_le ?_ (by norm_num)
      linarith

/-- C2: for every input to each entry point, including decode failures and a
raising progress sink, the returned confidence lies in `[0, 100]` (and
`isDeepfake` is a `Bool` by the shape of `DetectionResult`). -/
theorem C2_confidence_in_range (sink : SinkBehavior) (ts : String) (f : ImageFeatures)
    (ac cv : ℚ) (fis : List String) (lo : Bool) (af : AudioFeatures)
    (vi sa : List Anomaly) (frames : List (Option FrameFeatures))
    (ti fi : List Anomaly) :
    (0 ≤ (imageDetect sink ts f ac cv fis).confidence ∧
      (imageDetect sink ts f ac cv fis).confidence ≤ 100) ∧
    (0 ≤ (audioDetect sink ts lo af vi sa).confidence ∧
      (audioDetect sink ts lo af vi sa).confidence ≤ 100) ∧
    (0 ≤ (videoDetect sink ts frames ti fi).confidence ∧
      (videoDetect sink ts frames ti fi).confidence ≤ 100) := by
  refine ⟨?_, ?_, ?_⟩
  · cases sink with
    | absent => exact imageDetectOk_conf_bounds ts f ac cv fis
    | ok => exact imageDetectOk_conf_bounds ts f ac cv fis
    | raising msg =>
      constructor
      · show (0:ℚ) ≤ 50
        norm_num
      · show (50:ℚ) ≤ 100
        norm_num
  · cases sink with
    | absent =>
      cases lo with
      | true => exact audioDetectOk_conf_bounds ts af vi sa
      | false =>
        constructor
        · show (0:ℚ) ≤ 50
          norm_num
        · show (50:ℚ) ≤ 100
          norm_num
    | ok =>
      cases lo with
      | true => exact audioDetectOk_conf_bounds ts af vi sa
      | false =>
        constructor
        · show (0:ℚ) ≤ 50
          norm_num
        · show (50:ℚ) ≤ 100
          norm_num
    | raising msg =>
      constructor
      · show (0:ℚ) ≤ 50
        norm_num
      · show (50:ℚ) ≤ 100
        norm_num
  · cases sink with
    | absent =>
      rcases frames with _ | ⟨fr, frs⟩
      · constructor
        · show (0:ℚ) ≤ 50
          norm_num
        · show (50:ℚ) ≤ 100
          norm_num
      · exact videoDetectOk_conf_bounds ts (fr :: frs) ti fi
    | ok =>
      rcases frames with _ | ⟨fr, frs⟩
      · constructor
        · show (0:ℚ) ≤ 50
          norm_num
        · show (50:ℚ) ≤ 100
          norm_num
      · exact videoDetectOk_conf_bounds ts (fr :: frs) ti fi
    | raising msg =>
      constructor
      · show (0:ℚ) ≤ 50
        norm_num
      · show (50:ℚ) ≤ 100
        norm_num

theorem videoDetectOk_anomalies_len (ts : String) (frames : List (Option FrameFeatures))
    (ti fi : List Anomaly) :
    (videoDetectOk ts frames ti fi).isDeepfake = true →
      2 ≤ (videoDetectOk ts frames ti fi).anomalies.length := by
  intro hfake
  simp only [videoDetectOk] at hfake ⊢
  split_ifs with h1 h2 <;>
    simp_all [List.length_append] <;>
    omega

/-- C6: on the video non-error path, the classification is exactly
`ratio > 0.4 OR temporal_issues > 2 OR face_issues > 1`, and every fake
verdict carries at least two anomalies (two generic fillers are appended when
fewer than two were collected). -/
theorem C6_video_decision (ts : String) (frames : List (Option FrameFeatures))
    (ti fi : List Anomaly) (hne : frames ≠ []) :
    (videoDetect .absent ts frames ti fi).isDeepfake =
      decide (((((frames.map analyzeSingleFrame).filter (fun r => r.1)).length : ℚ) /
          (frames.length : ℚ) > 2/5) ∨ ti.length > 2 ∨ fi.length > 1) ∧
    ((videoDetect .absent ts frames ti fi).isDeepfake = true →
      2 ≤ (videoDetect .absent ts frames ti fi).anomalies.length) := by
  rcases frames with _ | ⟨fr, frs⟩
  · exact absurd rfl hne
  · exact ⟨rfl, videoDetectOk_anomalies_len ts (fr :: frs) ti fi⟩

/-- C6, witness: a single flat, dark, blur-free frame fires every per-frame
rule, is classified suspicious, the ratio is 1, the video is classified fake,
and the two filler anomalies make the anomaly list length at least 2. -/
theorem C6_video_decision_witness :
    ([some (⟨0, 0, 0, 0, 0⟩ : FrameFeatures)] : List (Option FrameFeatures)) ≠ [] ∧
    ((videoDetect .absent "t" [some ⟨0, 0, 0, 0, 0⟩] [] []).isDeepfake =
      decide ((((([some (⟨0, 0, 0, 0, 0⟩ : FrameFeatures)].map
            analyzeSingleFrame).filter (fun r => r.1)).length : ℚ) /
          (([some (⟨0, 0, 0, 0, 0⟩ : FrameFeatures)] :
            List (Option FrameFeatures)).length : ℚ) > 2/5) ∨
        ([] : List Anomaly).length > 2 ∨ ([] : List Anomaly).length > 1) ∧
    ((videoDetect .absent "t" [some ⟨0, 0, 0, 0, 0⟩] [] []).isDeepfake = true →
      2 ≤ (videoDetect .absent "t" [some ⟨0, 0, 0, 0, 0⟩] [] []).anomalies.length)) :=
  ⟨by simp, C6_video_decision "t" [some ⟨0, 0, 0, 0, 0⟩] [] [] (by simp)⟩

/-- C7: per modality, the raw suspicion score is monotone in the set of
triggered rule conditions: if one input fires every rule condition another
fires (and at least as many per-issue increments), its raw score is at least
as large.  Adding one independently-triggerable condition while holding the
rest fixed is the special case of a pointwise step in the profile. -/
theorem C7_suspicion_monotone
    (f1 f2 : ImageFeatures) (ac1 cv1 ac2 cv2 : ℚ) (fis1 fis2 : List String)
    (af1 af2 : AudioFeatures) (vi1 sa1 vi2 sa2 : List Anomaly)
    (vf1 vf2 : FrameFeatures)
    (hI : (imageFiresOf f1 ac1 cv1 fis1).below (imageFiresOf f2 ac2 cv2 fis2))
    (hA : (audioFiresOf af1 vi1 sa1).below (audioFiresOf af2 vi2 sa2))
    (hV : (frameFiresOf vf1).below (frameFiresOf vf2)) :
    (imageSuspicion f1 ac1 cv1 fis1).1 ≤ (imageSuspicion f2 ac2 cv2 fis2).1 ∧
    (audioSuspicion af1 vi1 sa1).1 ≤ (audioSuspicion af2 vi2 sa2).1 ∧
    (frameRules vf1).1 ≤ (frameRules vf2).1 := by
  refine ⟨?_, ?_, ?_⟩
  · rw [imageSuspicion_eq_firesScore, imageSuspicion_eq_firesScore]
    exact imageFiresScore_mono hI
  · rw [audioSuspicion_eq_firesScore, audioSuspicion_eq_firesScore]
    exact audioFiresScore_mono hA
  · rw [frameRules_eq_firesScore, frameRules_eq_firesScore]
    exact frameFiresScore_mono hV

/-- C7, witness: adding exactly one fired rule per modality (the image edge
rule via `edge_density = 0`, the audio ZCR rule via `zcr_std = 0`, the video
blur rule via `blur_score = 0`) keeps the raw scores ordered. -/
theorem C7_suspicion_monotone_witness :
    (imageFiresOf emptyImageFeatures 0 0 []).below
      (imageFiresOf { edge_density := some 0 } 0 0 []) ∧
    (audioFiresOf emptyAudioFeatures [] []).below
      (audioFiresOf { zcr_std := some 0 } [] []) ∧
    (frameFiresOf ⟨100, 1/10, 20, 100, 50⟩).below (frameFiresOf ⟨0, 1/10, 20, 100, 50⟩) ∧
    (imageSuspicion emptyImageFeatures 0 0 []).1 ≤
      (imageSuspicion { edge_density := some 0 } 0 0 []).1 ∧
    (audioSuspicion emptyAudioFeatures [] []).1 ≤
      (audioSuspicion { zcr_std := some 0 } [] []).1 ∧
    (frameRules ⟨100, 1/10, 20, 100, 50⟩).1 ≤ (frameRules ⟨0, 1/10, 20, 100, 50⟩).1 := by
  have hI : (imageFiresOf emptyImageFeatures 0 0 []).below
      (imageFiresOf { edge_density := some 0 } 0 0 []) := by
    norm_num [imageFiresOf, ImageRuleFires.below, emptyImageFeatures]
  have hA : (audioFiresOf emptyAudioFeatures [] []).below
      (audioFiresOf { zcr_std := some 0 } [] []) := by
    norm_num [audioFiresOf, AudioRuleFires.below, emptyAudioFeatures]
  have hV : (frameFiresOf ⟨100, 1/10, 20, 100, 50⟩).below
      (frameFiresOf ⟨0, 1/10, 20, 100, 50⟩) := by
    norm_num [frameFiresOf, FrameRuleFires.below]
  have hc := C7_suspicion_monotone emptyImageFeatures { edge_density := some 0 } 0 0 0 0
    [] [] emptyAudioFeatures { zcr_std := some 0 } [] [] [] []
    ⟨100, 1/10, 20, 100, 50⟩ ⟨0, 1/10, 20, 100, 50⟩ hI hA hV
  exact ⟨hI, hA, hV, hc.1, hc.2.1, hc.2.2⟩

/-- C8: two detection calls on identical inputs in an identical environment
differ at most in the wall-clock timestamp they stamp on the result; the
classification and the anomaly-type sequence (hence set) are identical.  The
embedded pipelines are pure functions of their inputs, mirroring the absence
of randomness or cross-call state in the source. -/
theorem C8_determinism (sink : SinkBehavior) (ts1 ts2 : String) (f : ImageFeatures)
    (ac cv : ℚ) (fis : List String) (lo : Bool) (af : AudioFeatures)
    (vi sa : List Anomaly) (frames : List (Option FrameFeatures)) (ti fi : List Anomaly) :
    ((imageDetect sink ts1 f ac cv fis).isDeepfake =
        (imageDetect sink ts2 f ac cv fis).isDeepfake ∧
      (imageDetect sink ts1 f ac cv fis).anomalies.map Anomaly.type =
        (imageDetect sink ts2 f ac cv fis).anomalies.map Anomaly.type) ∧
    ((audioDetect sink ts1 lo af vi sa).isDeepfake =
        (audioDetect sink ts2 lo af vi sa).isDeepfake ∧
      (audioDetect sink ts1 lo af vi sa).anomalies.map Anomaly.type =
        (audioDetect sink ts2 lo af vi sa).anomalies.map Anomaly.type) ∧
    ((videoDetect sink ts1 frames ti fi).isDeepfake =
        (videoDetect sink ts2 frames ti fi).isDeepfake ∧
      (videoDetect sink ts1 frames ti fi).anomalies.map Anomaly.type =
        (videoDetect sink ts2 frames ti fi).anomalies.map Anomaly.type) := by
  cases sink <;> cases lo <;> rcases frames with _ | ⟨fr, frs⟩ <;>
    exact ⟨⟨rfl, rfl⟩, ⟨rfl, rfl⟩, rfl, rfl⟩

/-- C9, counterexample.  A progress sink that raises on invocation DOES
change the pipeline outcome: the exception from the first `emit` is caught by
the top-level `except` of `detect`, which returns the fallback error result
(confidence 50, error set) instead of the non-error result the same input
yields under a working sink. -/
theorem C9_counterexample :
    (imageDetect (.raising "sink unavailable") "t" emptyImageFeatures
      (1/10) (1/100) []).error = some "sink unavailable" ∧
    (imageDetect (.raising "sink unavailable") "t" emptyImageFeatures
      (1/10) (1/100) []).confidence = 50 ∧
    (imageDetect .ok "t" emptyImageFeatures (1/10) (1/100) []).error = none ∧
    imageDetect (.raising "sink unavailable") "t" emptyImageFeatures (1/10) (1/100) [] ≠
      imageDetect .ok "t" emptyImageFeatures (1/10) (1/100) [] := by
  refine ⟨rfl, rfl, rfl, fun hEq => absurd (congrArg DetectionResult.error hEq) (by decide)⟩

/-- C9, amended.  The pipeline outcome is unchanged only when no sink is
attached (which behaves identically to a working sink); a sink that raises on
invocation turns the call into the fallback error DetectionResult carrying
the raised message — the call still returns rather than raising. -/
theorem C9_amended (ts msg : String) (f : ImageFeatures) (ac cv : ℚ) (fis : List String)
    (lo : Bool) (af : AudioFeatures) (vi sa : List Anomaly)
    (frames : List (Option FrameFeatures)) (ti fi : List Anomaly) :
    (imageDetect .absent ts f ac cv fis = imageDetect .ok ts f ac cv fis ∧
      imageDetect (.raising msg) ts f ac cv fis = imageFallback ts msg) ∧
    (audioDetect .absent ts lo af vi sa = audioDetect .ok ts lo af vi sa ∧
      audioDetect (.raising msg) ts lo af vi sa = audioFallback ts msg) ∧
    (videoDetect .absent ts frames ti fi = videoDetect .ok ts frames ti fi ∧
      videoDetect (.raising msg) ts frames ti fi = videoFallback ts msg) :=
  ⟨⟨rfl, rfl⟩, ⟨rfl, rfl⟩, rfl, rfl⟩

/-- C10: scoring is total on every feature mapping; each scored feature is
read through its documented default (image: edge_density 0.15,
texture_variance 500, color_uniformity 30, freq_variance 5; audio: zcr_std
0.01, rms_std 0.1, spectral_centroid_std 500, mfcc_0_std 10), and on the
empty mapping none of those threshold rules fires, so the feature rules
contribute 0 to the raw suspicion score (only the compression rule and
per-issue increments remain). -/
theorem C10_missing_feature_defaults (ac cv : ℚ) (fis : List String)
    (vi sa : List Anomaly) :
    emptyImageFeatures.edge_density.getD (3/20) = 3/20 ∧
    emptyImageFeatures.texture_variance.getD 500 = 500 ∧
    emptyImageFeatures.color_uniformity.getD 30 = 30 ∧
    emptyImageFeatures.freq_variance.getD 5 = 5 ∧
    emptyAudioFeatures.zcr_std.getD (1/100) = 1/100 ∧
    emptyAudioFeatures.rms_std.getD (1/10) = 1/10 ∧
    emptyAudioFeatures.spectral_centroid_std.getD 500 = 500 ∧
    emptyAudioFeatures.mfcc_0_std.getD 10 = 10 ∧
    (imageSuspicion emptyImageFeatures ac cv fis).1 =
      (if ac > 11/50 ∨ cv > 3/25 then 3/25 else 0) + (8/100) * (fis.length : ℚ) ∧
    (audioSuspicion emptyAudioFeatures vi sa).1 =
      (1/10) * (vi.length : ℚ) + (3/20) * (sa.length : ℚ) := by
  refine ⟨rfl, rfl, rfl, rfl, rfl, rfl, rfl, rfl, ?_, ?_⟩
  · simp only [imageSuspicion, emptyImageFeatures, apply_ite Prod.fst]
    norm_num
  · norm_num [audioSuspicion, emptyAudioFeatures]
